import Mathlib

/-!
Shallow embedding of `src/cli.js` (point-cli): a command-line client for the
Point home-sensor cloud API.  The embedding models

* the persisted Configstore (`token`, `devices` keys) as a `Conf` record,
* the helper functions `getDevice`, `formatDate`, `timelinePrettier`,
  lodash `_.last` and `_.round(x, 2)`,
* each CLI command action as a function from its inputs and the (oracle)
  API response to the list of observable events it performs, in order:
  console prints, HTTP requests, Configstore writes, `process.exit`,
  uncaught synchronous exceptions and unhandled promise rejections.

Terminal colouring (chalk) and the interactive prompts are elided: prints
carry the uncoloured text, and the three `auth` inputs are parameters.
-/

/-- A calendar timestamp, as far as the `dateformat` mask
`HH:MM dd/mm/yyyy` consumes it (year, month, day, hour, minute). -/
structure DateTime where
  year : Nat
  month : Nat
  day : Nat
  hour : Nat
  minute : Nat
deriving DecidableEq, Repr

/-- A cached device record, as stored by `fetchDevices`:
`\x7bid: n.device_id, name: n.description\x7d`. -/
structure DeviceRecord where
  id : String
  name : String
deriving DecidableEq, Repr

/-- A device entry as returned by the remote `GET /devices` endpoint. -/
structure RemoteDevice where
  device_id : String
  description : String
  offline : Bool
  active : Bool
  last_heard_from_at : DateTime
deriving DecidableEq, Repr

/-- One timestamped sensor sample from a `values` array.  The numeric value
is modelled as a rational. -/
structure SensorSample where
  value : ℚ
  datetime : DateTime
deriving DecidableEq, Repr

/-- One entry of a timeline event's `text_params` array; only its `value`
field is read by the code. -/
structure TextParam where
  value : String
deriving DecidableEq, Repr

/-- A timeline event as returned by `GET /events`. -/
structure TimelineEvent where
  type : String
  created_at : DateTime
  text_params : List TextParam
deriving DecidableEq, Repr

/-- Outcome of one HTTP request, as the promise chain observes it: either a
fulfilled response carrying the parsed body, or a rejection carrying the
server-provided `data.message` string. -/
inductive ApiResult (α : Type) where
  | success (data : α)
  | failure (message : String)
deriving DecidableEq, Repr

/-- The persisted Configstore contents: the `token` and `devices` keys,
each possibly absent. -/
structure Conf where
  token : Option String := none
  devices : Option (List DeviceRecord) := none
deriving DecidableEq, Repr

/-- `conf.clear()`: removes all keys. -/
def Conf.clear (_ : Conf) : Conf := {}

/-- `conf.get('devices')` as consumed by lodash: an absent key behaves like
an empty collection (`_.find(undefined, p)` and `_.first(undefined)` are
both `undefined`). -/
def jsGetDevices (conf : Conf) : List DeviceRecord :=
  conf.devices.getD []

/-- One observable action of a command, in program order. -/
inductive Event where
  /-- `console.log` of a fixed or string-valued line. -/
  | print (s : String)
  /-- `console.log` of a line `pre ++ <number> ++ post`; the JS
  number-to-string conversion itself is left abstract and the numeric
  value is carried directly. -/
  | printValue (pre : String) (v : ℚ) (post : String)
  /-- `console.log(util.inspect(res, ...))` under `--debug`. -/
  | debugDump
  /-- An HTTP GET issued to `path` with the given query parameters. -/
  | request (path : String) (params : List (String × String))
  /-- `conf.set('token', t)`. -/
  | tokenSet (t : String)
  /-- `conf.set('devices', l)`. -/
  | devicesSet (l : List DeviceRecord)
  /-- `process.exit(code)`. -/
  | exitProcess (code : Nat)
  /-- An uncaught synchronous TypeError (property access on `undefined`)
  thrown in the command action, crashing the process. -/
  | throwTypeError
  /-- A rejected promise with no `.catch` handler attached. -/
  | unhandledRejection
deriving DecidableEq, Repr

/-- Effect of one event on the Configstore. -/
def applyEvent (c : Conf) : Event → Conf
  | .tokenSet t => { c with token := some t }
  | .devicesSet l => { c with devices := some l }
  | _ => c

/-- Configstore state after a trace of events. -/
def applyEvents (c : Conf) (es : List Event) : Conf :=
  es.foldl applyEvent c

/-- The lodash matches-property iteratee `['name', deviceName]` applied to
one device: SameValueZero comparison of `d.name` with `deviceName`; a
string never equals an absent (`undefined`) name. -/
def jsNameMatch (d : DeviceRecord) (deviceName : Option String) : Bool :=
  match deviceName with
  | some n => d.name == n
  | none => false

/-- `getDevice` from cli.js:
`_.find(devices, ['name', deviceName]) || _.first(devices)`. -/
def getDevice (devices : List DeviceRecord) (deviceName : Option String) :
    Option DeviceRecord :=
  (devices.find? (fun d => jsNameMatch d deviceName)).orElse
    (fun _ => devices.head?)

/-- Zero-pad a numeral to two digits, as the two-letter `dateformat` mask
fields do. -/
def pad2 (n : Nat) : String :=
  if n < 10 then "0" ++ toString n else toString n

/-- `formatDate` from cli.js: `dateFormat(date, 'HH:MM dd/mm/yyyy')`.
In the `dateformat` library `HH` is the padded 24-hour value, `MM` the
padded minutes, `dd`/`mm` the padded day and month, `yyyy` the year. -/
def formatDate (d : DateTime) : String :=
  pad2 d.hour ++ ":" ++ pad2 d.minute ++ " " ++
    pad2 d.day ++ "/" ++ pad2 d.month ++ "/" ++ toString d.year

/-- The regex replace `/:/g` with a space: every colon becomes a space. -/
def replaceColons (s : String) : String :=
  String.mk (s.data.map (fun c => if c = ':' then ' ' else c))

/-- Uppercase the first character of a word (lodash `upperFirst`). -/
def upperFirst (s : String) : String :=
  match s.data with
  | [] => ""
  | c :: cs => String.mk (c.toUpper :: cs)

/-- Accumulating splitter behind `asciiWords`: collects maximal runs of
alphanumeric characters. -/
def wordsAux : List Char → List Char → List (List Char)
  | [], acc => if acc.isEmpty then [] else [acc.reverse]
  | c :: cs, acc =>
      if c.isAlphanum then wordsAux cs (c :: acc)
      else if acc.isEmpty then wordsAux cs []
      else acc.reverse :: wordsAux cs []

/-- lodash `words` on the ASCII, non-camel-case strings arising here:
the maximal runs of alphanumeric characters. -/
def asciiWords (s : String) : List String :=
  (wordsAux s.data []).map String.mk

/-- lodash `startCase`: split into words, uppercase each first letter,
join with single spaces. -/
def startCase (s : String) : String :=
  String.intercalate " " ((asciiWords s).map upperFirst)

/-- `timelinePrettier` from cli.js:
`_.chain(s).replace(/:/g, ' ').startCase().value()`. -/
def timelinePrettier (s : String) : String :=
  startCase (replaceColons s)

/-- lodash `_.last`: the last element of the array, or absent when the
array is empty. -/
def jsLast (l : List SensorSample) : Option SensorSample :=
  l.getLast?

/-- lodash `_.round(x, 2)`: `Math.round(x * 100) / 100`, where
`Math.round` rounds halves toward positive infinity, i.e. `⌊x + 1/2⌋`. -/
def round2 (q : ℚ) : ℚ :=
  (⌊q * 100 + 1 / 2⌋ : ℤ) / 100

/-- The guidance message printed by `checkAuth` when no token is cached
(chalk styling elided). -/
def noTokenMessage : String :=
  "You don\x27t have an access token yet! Run point auth to get started."

/-- Trace of the `fetchDevices` function for a given `/devices` response:
prints `Fetching Points...`, issues the request, then on success prints the
count and each name and overwrites the `devices` key with the transformed
list; on failure prints the server message (its own `.catch`). -/
def fetchDevicesTrace (res : ApiResult (List RemoteDevice)) : List Event :=
  [.print "Fetching Points...", .request "/devices" []] ++
    match res with
    | .success devs =>
        [.print ("Found " ++ toString devs.length ++ " Point")] ++
          devs.map (fun n => .print ("Name: " ++ n.description)) ++
          [.devicesSet (devs.map (fun n =>
            { id := n.device_id, name := n.description }))]
    | .failure msg => [.print msg]

/-- Trace of the `auth` function given the three prompted strings, the
`/auth/token` response and (on success) the follow-on `/devices` response:
`axios.get('/auth/token', ...)` then `.then(set token; print success)`
`.then(fetchDevices)` `.catch(print message)`. -/
def authTrace (client_id username password : String)
    (authRes : ApiResult String) (devRes : ApiResult (List RemoteDevice)) :
    List Event :=
  [.request "/auth/token"
      [("client_id", client_id), ("grant_type", "password"),
       ("username", username), ("password", password)]] ++
    match authRes with
    | .success tok =>
        [.tokenSet tok, .print "Access token generated and saved!"] ++
          fetchDevicesTrace devRes
    | .failure msg => [.print msg]

/-- Trace of `checkAuth` when it fails: guidance print and `process.exit(1)`. -/
def checkAuthFailTrace : List Event :=
  [.print noTokenMessage, .exitProcess 1]

/-- Trace of the `fetch` command: `checkAuth()` then `fetchDevices()`. -/
def fetchCommandTrace (conf : Conf) (res : ApiResult (List RemoteDevice)) :
    List Event :=
  match conf.token with
  | none => checkAuthFailTrace
  | some _ => fetchDevicesTrace res

/-- JS `ToPrimitive` of an array of `n` plain objects (as in
`res.data.devices > 1`): each object stringifies to `[object Object]` and
the array joins them with commas. -/
def jsArrayToPrimitive : Nat → String
  | 0 => ""
  | 1 => "[object Object]"
  | n + 2 => "[object Object]," ++ jsArrayToPrimitive (n + 1)

/-- Numeric value of a digit string. -/
def digitsVal (s : String) : Nat :=
  s.data.foldl (fun a c => 10 * a + (c.toNat - 48)) 0

/-- JS `ToNumber` on the primitive strings arising from the comparison
`devices > 1`: the empty string converts to `0`, a string of decimal
digits to its value, anything else to NaN (`none`). -/
def jsStringToNumber (s : String) : Option Int :=
  if s.data.all (fun c => c.isDigit) then some (digitsVal s) else none

/-- The separator guard `res.data.devices > 1` from the `devices` command:
a JS abstract relational comparison of the device array against `1`.  The
array is converted to a primitive string; a NaN conversion makes the
comparison false. -/
def jsArrayGtOne (devs : List RemoteDevice) : Bool :=
  match jsStringToNumber (jsArrayToPrimitive devs.length) with
  | some n => decide (1 < n)
  | none => false

/-- Prints performed for one device entry inside the `devices` command
loop: name, id, the verbose lines, and the separator line when the guard
`res.data.devices > 1` holds. -/
def deviceEntryPrints (verbose : Bool) (allDevs : List RemoteDevice)
    (d : RemoteDevice) : List Event :=
  [.print ("Name: " ++ d.description), .print ("ID: " ++ d.device_id)] ++
    (if verbose then
      [.print ("Online: " ++ (if !d.offline then "✔" else "✗")),
       .print ("Active: " ++ (if d.active then "✔" else "✗")),
       .print ("Last seen: " ++ formatDate d.last_heard_from_at)]
    else []) ++
    (if jsArrayGtOne allDevs then [.print "\n"] else [])

/-- Trace of the `devices` command.  Its `.then` has no `.catch`, so a
failed response is an unhandled rejection. -/
def devicesCommandTrace (conf : Conf) (verbose debug : Bool)
    (res : ApiResult (List RemoteDevice)) : List Event :=
  match conf.token with
  | none => checkAuthFailTrace
  | some _ =>
      [.request "/devices" []] ++
        match res with
        | .success devs =>
            (if debug then [.debugDump] else []) ++
              (devs.map (deviceEntryPrints verbose devs)).flatten
        | .failure _ => [.unhandledRejection]

/-- Prints performed inside a sensor command's `.then` once the response
arrived: `_.last` of the `values` array, then the value line (through the
per-command transform) and the time line.  An empty `values` array makes
`newest.value` throw inside the handler, rejecting the promise with no
`.catch` attached. -/
def latestPrints (pre post : String) (transform : ℚ → ℚ)
    (values : List SensorSample) : List Event :=
  match jsLast values with
  | none => [.unhandledRejection]
  | some newest =>
      [.printValue pre (transform newest.value) post,
       .print ("Time: " ++ formatDate newest.datetime)]

/-- Trace of one of the six sensor commands (temp, humidity, sound, light,
lightir, pressure), which differ only in endpoint path, value-line label
and suffix, and value transform.  `checkAuth`, then `getDevice` — whose
absent result makes `point.name` throw synchronously — then the `Point:`
print, the request, the optional debug dump, and the latest-sample
prints.  No `.catch` is attached, so a failed response is an unhandled
rejection. -/
def sensorTrace (path pre post : String) (transform : ℚ → ℚ) (conf : Conf)
    (device : Option String) (debug : Bool)
    (res : ApiResult (List SensorSample)) : List Event :=
  match conf.token with
  | none => checkAuthFailTrace
  | some _ =>
      match getDevice (jsGetDevices conf) device with
      | none => [.throwTypeError]
      | some point =>
          [.print ("Point: " ++ point.name),
           .request ("/devices/" ++ point.id ++ "/" ++ path) []] ++
            match res with
            | .success values =>
                (if debug then [.debugDump] else []) ++
                  latestPrints pre post transform values
            | .failure _ => [.unhandledRejection]

/-- The `temp` command: endpoint `temperature`, value rounded to two
decimals, `°C` suffix. -/
def tempTrace : Conf → Option String → Bool →
    ApiResult (List SensorSample) → List Event :=
  sensorTrace "temperature" "Temp: " "°C" round2

/-- The `humidity` command: endpoint `humidity`, raw value, `%` suffix. -/
def humidityTrace : Conf → Option String → Bool →
    ApiResult (List SensorSample) → List Event :=
  sensorTrace "humidity" "Humidity: " "%" id

/-- The `sound` command: endpoint `sound_avg_levels`, raw value. -/
def soundTrace : Conf → Option String → Bool →
    ApiResult (List SensorSample) → List Event :=
  sensorTrace "sound_avg_levels" "Avg sound: " "" id

/-- The `light` command: endpoint `part_als`, raw value. -/
def lightTrace : Conf → Option String → Bool →
    ApiResult (List SensorSample) → List Event :=
  sensorTrace "part_als" "Avg light: " "" id

/-- The `lightir` command: endpoint `part_als_ir`, raw value. -/
def lightirTrace : Conf → Option String → Bool →
    ApiResult (List SensorSample) → List Event :=
  sensorTrace "part_als_ir" "Avg light IR: " "" id

/-- The `pressure` command: endpoint `pressure`, raw value. -/
def pressureTrace : Conf → Option String → Bool →
    ApiResult (List SensorSample) → List Event :=
  sensorTrace "pressure" "Avg pressure: " "" id

/-- Prints performed for one timeline event: the arrow, the formatted
`created_at`, a `Device:` line for the first `text_params` entry when one
exists (`text_params.slice(0, 1)`), and the prettified event type. -/
def renderEventTrace (e : TimelineEvent) : List Event :=
  [.print "↓", .print ("Date:   " ++ formatDate e.created_at)] ++
    (e.text_params.take 1).map (fun p => Event.print ("Device: " ++ p.value)) ++
    [.print ("Event:  " ++ timelinePrettier e.type)]

/-- Trace of the `timeline` command: request to `/events` with
`order=desc` and `limit` from the `--limit` option (the literal `10` when
the option is not given), then the `→ Present` marker, the per-event
prints, and the `→ Past` marker.  No `.catch` is attached. -/
def timelineTrace (conf : Conf) (limit : Option String) (debug : Bool)
    (res : ApiResult (List TimelineEvent)) : List Event :=
  match conf.token with
  | none => checkAuthFailTrace
  | some _ =>
      [.request "/events" [("order", "desc"), ("limit", limit.getD "10")]] ++
        match res with
        | .success events =>
            (if debug then [.debugDump] else []) ++
              [.print "→ Present"] ++
              (events.map renderEventTrace).flatten ++
              [.print "→ Past"]
        | .failure _ => [.unhandledRejection]

/-- A demonstration Configstore: a token plus two cached devices. -/
def confDemo : Conf :=
  { token := some "tok",
    devices := some [{ id := "dev1", name := "Kitchen" },
                     { id := "dev2", name := "Bedroom" }] }

/-- A string with a prefix of at least two characters is never the
one-character separator line. -/
theorem append_ne_newline (a b : String) (h : 2 ≤ a.length) :
    a ++ b ≠ "\n" := by
  intro hq
  have hl := congrArg String.length hq
  rw [String.length_append] at hl
  have h1 : ("\n" : String).length = 1 := rfl
  omega

/-- The primitive string of a non-empty object array is not a digit
string (its first character is a bracket). -/
theorem jsArrayToPrimitive_not_digits (n : Nat) (h : n ≠ 0) :
    ((jsArrayToPrimitive n).data.all (fun c => c.isDigit)) = false := by
  match n with
  | 1 => decide
  | n + 2 =>
    rw [show jsArrayToPrimitive (n + 2) =
          "[object Object]," ++ jsArrayToPrimitive (n + 1) from rfl,
        String.data_append, List.all_append]
    have h1 : ("[object Object]," : String).data.all (fun c => c.isDigit)
        = false := by decide
    rw [h1, Bool.false_and]

/-- The separator guard `res.data.devices > 1` of the `devices` command is
false for every device array. -/
theorem jsArrayGtOne_eq_false (devs : List RemoteDevice) :
    jsArrayGtOne devs = false := by
  unfold jsArrayGtOne jsStringToNumber
  rcases Nat.eq_zero_or_pos devs.length with h | h
  · rw [h]; decide
  · rw [jsArrayToPrimitive_not_digits devs.length (Nat.pos_iff_ne_zero.mp h)]
    rfl

/-- No line printed for a device entry is the separator line. -/
theorem newline_not_in_deviceEntryPrints (verbose : Bool)
    (allDevs : List RemoteDevice) (d : RemoteDevice) :
    Event.print "\n" ∉ deviceEntryPrints verbose allDevs d := by
  have hname : ("\n" : String) ≠ "Name: " ++ d.description :=
    (append_ne_newline _ _ (by decide)).symm
  have hid : ("\n" : String) ≠ "ID: " ++ d.device_id :=
    (append_ne_newline _ _ (by decide)).symm
  have hon : ("\n" : String) ≠ "Online: " ++ (if !d.offline then "✔" else "✗") :=
    (append_ne_newline _ _ (by decide)).symm
  have hac : ("\n" : String) ≠ "Active: " ++ (if d.active then "✔" else "✗") :=
    (append_ne_newline _ _ (by decide)).symm
  have hls : ("\n" : String) ≠ "Last seen: " ++ formatDate d.last_heard_from_at :=
    (append_ne_newline _ _ (by decide)).symm
  unfold deviceEntryPrints
  rw [jsArrayGtOne_eq_false]
  cases verbose <;> simp_all

/-- C10: the `devices` command never prints the blank separator line
between device entries, for every response: the guard
`res.data.devices > 1` compares the device array itself, not its length,
to `1`, and is false for every device array. -/
theorem devices_separator_never_printed (devs : List RemoteDevice)
    (conf : Conf) (verbose debug : Bool)
    (res : ApiResult (List RemoteDevice)) :
    jsArrayGtOne devs = false
    ∧ Event.print "\n" ∉ devicesCommandTrace conf verbose debug res := by
  refine ⟨jsArrayGtOne_eq_false devs, ?_⟩
  unfold devicesCommandTrace
  cases hc : conf.token with
  | none =>
    show Event.print "\n" ∉ checkAuthFailTrace
    decide
  | some t =>
    cases res with
    | failure msg => simp
    | success ds =>
      intro hmem
      rcases List.mem_append.mp hmem with h | h
      · simp at h
      · rcases List.mem_append.mp h with h | h
        · cases debug <;> simp_all
        · rcases List.mem_flatten.mp h with ⟨l, hl, hmem2⟩
          rcases List.mem_map.mp hl with ⟨d, hd, rfl⟩
          exact newline_not_in_deviceEntryPrints verbose ds d hmem2

/-- C1: `getDevice` returns the first cached record whose `name` is exactly
(case-sensitively) equal to the given name; with no name given, or no
record matching, it returns the first record in cache order. -/
theorem getDevice_resolution_policy (devices : List DeviceRecord)
    (n : String) :
    (∀ d, devices.find? (fun d => d.name == n) = some d →
        getDevice devices (some n) = some d)
    ∧ (devices.find? (fun d => d.name == n) = none →
        getDevice devices (some n) = devices.head?)
    ∧ getDevice devices none = devices.head? := by
  refine ⟨?_, ?_, ?_⟩
  · intro d h
    unfold getDevice
    rw [show (fun d => jsNameMatch d (some n)) =
          (fun d : DeviceRecord => d.name == n) from rfl, h]
    rfl
  · intro h
    unfold getDevice
    rw [show (fun d => jsNameMatch d (some n)) =
          (fun d : DeviceRecord => d.name == n) from rfl, h]
    rfl
  · unfold getDevice
    have h : devices.find? (fun d => jsNameMatch d none) = none := by
      simp [List.find?_eq_none, jsNameMatch]
    rw [h]
    rfl

/-- Witness for C1: on the demo cache, an exact-name lookup returns that
record, and a lookup for an unknown name falls back to the first record. -/
theorem getDevice_resolution_policy_witness :
    getDevice (jsGetDevices confDemo) (some "Bedroom") =
      some { id := "dev2", name := "Bedroom" }
    ∧ getDevice (jsGetDevices confDemo) (some "Nonexistent") =
      (jsGetDevices confDemo).head? :=
  ⟨(getDevice_resolution_policy (jsGetDevices confDemo) "Bedroom").1
      { id := "dev2", name := "Bedroom" } (by decide),
   (getDevice_resolution_policy (jsGetDevices confDemo) "Nonexistent").2.1
      (by decide)⟩

/-- C8: on an empty device cache `getDevice` yields an absent record rather
than an explicit error, and `_.last` of an empty sample sequence is
absent; at the command level neither case is guarded — an empty cache
makes the action throw on `point.name`, and an empty `values` array makes
the handler reject with no catch, instead of an explicit error report. -/
theorem empty_boundaries_unguarded (name device : Option String)
    (conf : Conf) (path pre post : String) (transform : ℚ → ℚ)
    (debug : Bool) (res : ApiResult (List SensorSample))
    (point : DeviceRecord) (htok : conf.token.isSome = true) :
    getDevice [] name = none
    ∧ jsLast [] = none
    ∧ (jsGetDevices conf = [] →
        sensorTrace path pre post transform conf device debug res =
          [Event.throwTypeError])
    ∧ (getDevice (jsGetDevices conf) device = some point →
        sensorTrace path pre post transform conf device debug
            (ApiResult.success []) =
          [Event.print ("Point: " ++ point.name),
           Event.request ("/devices/" ++ point.id ++ "/" ++ path) []] ++
            (if debug then [Event.debugDump] else []) ++
            [Event.unhandledRejection]) := by
  obtain ⟨t, ht⟩ := Option.isSome_iff_exists.mp htok
  refine ⟨?_, rfl, ?_, ?_⟩
  · cases name <;> rfl
  · intro hdev
    have h2 : getDevice (jsGetDevices conf) device = none := by
      rw [hdev]; cases device <;> rfl
    unfold sensorTrace
    rw [ht, h2]
  · intro hdev
    unfold sensorTrace
    rw [ht, hdev]
    cases debug <;> rfl

/-- Witness for C8: the `temp` command on the demo cache with an empty
`values` array resolves the first device, issues the request, and ends in
an unhandled rejection. -/
theorem empty_boundaries_unguarded_witness :
    sensorTrace "temperature" "Temp: " "°C" round2 confDemo none false
        (ApiResult.success []) =
      [Event.print "Point: Kitchen",
       Event.request "/devices/dev1/temperature" [],
       Event.unhandledRejection] := by
  have h := (empty_boundaries_unguarded none none confDemo "temperature"
      "Temp: " "°C" round2 false (ApiResult.success [])
      { id := "dev1", name := "Kitchen" } rfl).2.2.2 (by decide)
  rw [h]
  rfl

/-- `applyEvents` distributes over trace concatenation. -/
theorem applyEvents_append (c : Conf) (a b : List Event) :
    applyEvents c (a ++ b) = applyEvents (applyEvents c a) b := by
  simp [applyEvents]

/-- A trace of prints leaves the Configstore untouched. -/
theorem applyEvents_prints (c : Conf) (l : List RemoteDevice)
    (f : RemoteDevice → String) :
    applyEvents c (l.map (fun n => Event.print (f n))) = c := by
  induction l generalizing c with
  | nil => rfl
  | cons x xs ih =>
    show applyEvents (applyEvent c (Event.print (f x))) (xs.map _) = c
    exact ih c

/-- Configstore effect of a successful `fetchDevices` run: the `devices`
key is overwritten with the transformed list, nothing else changes. -/
theorem applyEvents_fetchTrace_success (c : Conf)
    (ds : List RemoteDevice) :
    applyEvents c (fetchDevicesTrace (ApiResult.success ds)) =
      { c with devices := some (ds.map (fun n =>
          { id := n.device_id, name := n.description })) } := by
  show applyEvents c
      ([Event.print "Fetching Points...", Event.request "/devices" []] ++
        ([Event.print ("Found " ++ toString ds.length ++ " Point")] ++
          ds.map (fun n => Event.print ("Name: " ++ n.description)) ++
          [Event.devicesSet (ds.map (fun n =>
            { id := n.device_id, name := n.description }))])) = _
  rw [applyEvents_append, applyEvents_append, applyEvents_append,
    applyEvents_prints]
  rfl

/-- Configstore effect of a failed `fetchDevices` run: none. -/
theorem applyEvents_fetchTrace_failure (c : Conf) (msg : String) :
    applyEvents c (fetchDevicesTrace (ApiResult.failure msg)) = c := rfl

/-- C7: on success `fetchDevices` replaces the whole cached device list
with the response entries transformed to records of `device_id` and
`description`, in response order — a full overwrite, independent of the
previous cache; on failure the Configstore is unchanged. -/
theorem fetchDevices_cache_overwrite (conf : Conf)
    (devs : List RemoteDevice) (msg : String) :
    applyEvents conf (fetchDevicesTrace (ApiResult.success devs)) =
      { conf with devices := some (devs.map (fun n =>
          { id := n.device_id, name := n.description })) }
    ∧ applyEvents conf (fetchDevicesTrace (ApiResult.failure msg)) = conf :=
  ⟨applyEvents_fetchTrace_success conf devs,
   applyEvents_fetchTrace_failure conf msg⟩

/-- C4: on auth success the token write is the second trace event and
strictly precedes the start of the device refresh, which is triggered for
every refresh outcome; and the stored token survives the refresh whatever
that outcome, including failure. -/
theorem auth_success_sequencing (client_id username password tok : String)
    (devRes : ApiResult (List RemoteDevice)) (conf : Conf) :
    (∃ i j, i < j
      ∧ (authTrace client_id username password (ApiResult.success tok)
          devRes).get? i = some (Event.tokenSet tok)
      ∧ (authTrace client_id username password (ApiResult.success tok)
          devRes).get? j = some (Event.print "Fetching Points..."))
    ∧ (applyEvents conf (authTrace client_id username password
        (ApiResult.success tok) devRes)).token = some tok := by
  constructor
  · exact ⟨1, 3, by omega, rfl, rfl⟩
  · show (applyEvents { conf with token := some tok }
        (fetchDevicesTrace devRes)).token = some tok
    cases devRes with
    | success ds => rw [applyEvents_fetchTrace_success]
    | failure msg => rfl

/-- C5: on auth failure only the token request and the server message
print happen: the Configstore is left exactly as it was (any cached token
untouched) and the process is not forcibly exited. -/
theorem auth_failure_preserves_store
    (client_id username password msg : String) (conf : Conf)
    (devRes : ApiResult (List RemoteDevice)) :
    authTrace client_id username password (ApiResult.failure msg) devRes =
      [Event.request "/auth/token"
        [("client_id", client_id), ("grant_type", "password"),
         ("username", username), ("password", password)],
       Event.print msg]
    ∧ applyEvents conf (authTrace client_id username password
        (ApiResult.failure msg) devRes) = conf
    ∧ ∀ k, Event.exitProcess k ∉ authTrace client_id username password
        (ApiResult.failure msg) devRes := by
  refine ⟨rfl, rfl, ?_⟩
  intro k hk
  simp [authTrace] at hk

/-- Unfolding of a sensor command with a token, a resolved device and a
non-empty sample list. -/
theorem sensorTrace_success_getLast (path pre post : String)
    (transform : ℚ → ℚ) (conf : Conf) (device : Option String)
    (point : DeviceRecord) (values : List SensorSample) (t : String)
    (ht : conf.token = some t)
    (hdev : getDevice (jsGetDevices conf) device = some point)
    (h : values ≠ []) :
    sensorTrace path pre post transform conf device false
        (ApiResult.success values) =
      [Event.print ("Point: " ++ point.name),
       Event.request ("/devices/" ++ point.id ++ "/" ++ path) [],
       Event.printValue pre (transform (values.getLast h).value) post,
       Event.print ("Time: " ++ formatDate (values.getLast h).datetime)] := by
  unfold sensorTrace
  rw [ht, hdev]
  show _ ++ latestPrints pre post transform values = _
  unfold latestPrints jsLast
  rw [List.getLast?_eq_getLast values h]
  rfl

/-- C2: for a non-empty sample sequence every sensor command renders the
last element in response order: `temp` prints its value rounded to two
decimals, the other five print the raw value, and all print its timestamp
formatted as HH:MM DD/MM/YYYY by `formatDate`. -/
theorem latest_sample_rendering (conf : Conf) (device : Option String)
    (point : DeviceRecord) (values : List SensorSample) (t : String)
    (ht : conf.token = some t)
    (hdev : getDevice (jsGetDevices conf) device = some point)
    (h : values ≠ []) :
    tempTrace conf device false (ApiResult.success values) =
      [Event.print ("Point: " ++ point.name),
       Event.request ("/devices/" ++ point.id ++ "/" ++ "temperature") [],
       Event.printValue "Temp: " (round2 (values.getLast h).value) "°C",
       Event.print ("Time: " ++ formatDate (values.getLast h).datetime)]
    ∧ humidityTrace conf device false (ApiResult.success values) =
      [Event.print ("Point: " ++ point.name),
       Event.request ("/devices/" ++ point.id ++ "/" ++ "humidity") [],
       Event.printValue "Humidity: " ((values.getLast h).value) "%",
       Event.print ("Time: " ++ formatDate (values.getLast h).datetime)]
    ∧ soundTrace conf device false (ApiResult.success values) =
      [Event.print ("Point: " ++ point.name),
       Event.request ("/devices/" ++ point.id ++ "/" ++ "sound_avg_levels") [],
       Event.printValue "Avg sound: " ((values.getLast h).value) "",
       Event.print ("Time: " ++ formatDate (values.getLast h).datetime)]
    ∧ lightTrace conf device false (ApiResult.success values) =
      [Event.print ("Point: " ++ point.name),
       Event.request ("/devices/" ++ point.id ++ "/" ++ "part_als") [],
       Event.printValue "Avg light: " ((values.getLast h).value) "",
       Event.print ("Time: " ++ formatDate (values.getLast h).datetime)]
    ∧ lightirTrace conf device false (ApiResult.success values) =
      [Event.print ("Point: " ++ point.name),
       Event.request ("/devices/" ++ point.id ++ "/" ++ "part_als_ir") [],
       Event.printValue "Avg light IR: " ((values.getLast h).value) "",
       Event.print ("Time: " ++ formatDate (values.getLast h).datetime)]
    ∧ pressureTrace conf device false (ApiResult.success values) =
      [Event.print ("Point: " ++ point.name),
       Event.request ("/devices/" ++ point.id ++ "/" ++ "pressure") [],
       Event.printValue "Avg pressure: " ((values.getLast h).value) "",
       Event.print ("Time: " ++ formatDate (values.getLast h).datetime)] :=
  ⟨sensorTrace_success_getLast _ _ _ _ conf device point values t ht hdev h,
   sensorTrace_success_getLast _ _ _ _ conf device point values t ht hdev h,
   sensorTrace_success_getLast _ _ _ _ conf device point values t ht hdev h,
   sensorTrace_success_getLast _ _ _ _ conf device point values t ht hdev h,
   sensorTrace_success_getLast _ _ _ _ conf device point values t ht hdev h,
   sensorTrace_success_getLast _ _ _ _ conf device point values t ht hdev h⟩

/-- Witness for C2: the spec example — samples 19.2 then 19.8 (96/5 and
99/5), the second newer — renders 19.8 (rounding fixes it) at the second
timestamp. -/
theorem latest_sample_rendering_witness :
    tempTrace confDemo none false (ApiResult.success
        [{ value := 96/5, datetime :=
            { year := 2018, month := 12, day := 20, hour := 9, minute := 5 } },
         { value := 99/5, datetime :=
            { year := 2018, month := 12, day := 20, hour := 10, minute := 5 } }]) =
      [Event.print "Point: Kitchen",
       Event.request "/devices/dev1/temperature" [],
       Event.printValue "Temp: " (99/5) "°C",
       Event.print "Time: 10:05 20/12/2018"] := by
  have hd := (latest_sample_rendering confDemo none
      { id := "dev1", name := "Kitchen" }
      [{ value := 96/5, datetime :=
          { year := 2018, month := 12, day := 20, hour := 9, minute := 5 } },
       { value := 99/5, datetime :=
          { year := 2018, month := 12, day := 20, hour := 10, minute := 5 } }]
      "tok" rfl (by decide) (by decide)).1
  rw [hd]
  have hr : round2 ((99:ℚ)/5) = 99/5 := by rw [round2]; norm_num
  show [Event.print "Point: Kitchen",
        Event.request "/devices/dev1/temperature" [],
        Event.printValue "Temp: " (round2 ((99:ℚ)/5)) "°C",
        Event.print "Time: 10:05 20/12/2018"] = _
  rw [hr]

/-- C6: `clear()` leaves the token absent, and with no cached token every
authenticated command (fetch, devices, all six sensor commands, timeline)
prints the guidance message and exits the process with status 1, issuing
no request. -/
theorem no_token_guard (c0 conf : Conf) (h : conf.token = none)
    (verbose debug : Bool) (device : Option String)
    (path pre post : String) (transform : ℚ → ℚ) (limit : Option String)
    (dres : ApiResult (List RemoteDevice))
    (sres : ApiResult (List SensorSample))
    (tres : ApiResult (List TimelineEvent)) :
    (Conf.clear c0).token = none
    ∧ fetchCommandTrace conf dres =
        [Event.print noTokenMessage, Event.exitProcess 1]
    ∧ devicesCommandTrace conf verbose debug dres =
        [Event.print noTokenMessage, Event.exitProcess 1]
    ∧ sensorTrace path pre post transform conf device debug sres =
        [Event.print noTokenMessage, Event.exitProcess 1]
    ∧ timelineTrace conf limit debug tres =
        [Event.print noTokenMessage, Event.exitProcess 1]
    ∧ ∀ p ps, Event.request p ps ∉
        [Event.print noTokenMessage, Event.exitProcess 1] := by
  refine ⟨rfl, ?_, ?_, ?_, ?_, ?_⟩
  · unfold fetchCommandTrace; rw [h]; rfl
  · unfold devicesCommandTrace; rw [h]; rfl
  · unfold sensorTrace; rw [h]; rfl
  · unfold timelineTrace; rw [h]; rfl
  · intro p ps hmem
    simp at hmem

/-- Witness for C6: after clearing the demo store, the fetch command only
prints the guidance and exits with status 1. -/
theorem no_token_guard_witness :
    (Conf.clear confDemo).token = none
    ∧ fetchCommandTrace (Conf.clear confDemo) (ApiResult.failure "x") =
        [Event.print noTokenMessage, Event.exitProcess 1] :=
  ⟨(no_token_guard confDemo (Conf.clear confDemo) rfl false false none
      "temperature" "Temp: " "°C" round2 none (ApiResult.failure "x")
      (ApiResult.failure "x") (ApiResult.failure "x")).1,
   (no_token_guard confDemo (Conf.clear confDemo) rfl false false none
      "temperature" "Temp: " "°C" round2 none (ApiResult.failure "x")
      (ApiResult.failure "x") (ApiResult.failure "x")).2.1⟩

/-- C9: the timeline command requests `/events` with `order=desc` and the
user-supplied limit (`10` when none is given); each event is rendered as
its formatted `created_at`, a device label from the first `text_params`
entry when one is present, and the event type with colons replaced by
spaces and Title-Cased; the list is bracketed by the Present and Past
markers. -/
theorem timeline_rendering (conf : Conf) (limit : Option String)
    (events : List TimelineEvent) (t : String)
    (ht : conf.token = some t) :
    timelineTrace conf limit false (ApiResult.success events) =
      Event.request "/events" [("order", "desc"), ("limit", limit.getD "10")] ::
        Event.print "→ Present" ::
        ((events.map renderEventTrace).flatten ++ [Event.print "→ Past"])
    ∧ (∀ e, renderEventTrace e =
        [Event.print "↓",
         Event.print ("Date:   " ++ formatDate e.created_at)] ++
          (e.text_params.take 1).map
            (fun p => Event.print ("Device: " ++ p.value)) ++
          [Event.print ("Event:  " ++ timelinePrettier e.type)])
    ∧ timelinePrettier "door:opened:remotely" = "Door Opened Remotely" := by
  refine ⟨?_, fun e => rfl, by decide⟩
  unfold timelineTrace
  rw [ht]
  rfl

/-- Witness for C9: one `door:opened:remotely` event with two
`text_params` entries renders with the default limit of 10, the first
entry's label only, and the Title-Cased type between the markers. -/
theorem timeline_rendering_witness :
    timelineTrace confDemo none false (ApiResult.success
        [{ type := "door:opened:remotely",
           created_at :=
             { year := 2018, month := 12, day := 20, hour := 9, minute := 5 },
           text_params := [{ value := "Kitchen" }, { value := "spare" }] }]) =
      [Event.request "/events" [("order", "desc"), ("limit", "10")],
       Event.print "→ Present",
       Event.print "↓",
       Event.print "Date:   09:05 20/12/2018",
       Event.print "Device: Kitchen",
       Event.print "Event:  Door Opened Remotely",
       Event.print "→ Past"] := by
  have h := (timeline_rendering confDemo none
      [{ type := "door:opened:remotely",
         created_at :=
           { year := 2018, month := 12, day := 20, hour := 9, minute := 5 },
         text_params := [{ value := "Kitchen" }, { value := "spare" }] }]
      "tok" rfl).1
  rw [h]
  decide

/-- C3 counterexample: the `temp` command (an authenticated command) does
not recover a non-success response locally — the server-provided message
is never printed and the rejection is left unhandled, because its promise
chain has no failure handler. -/
theorem remote_rejection_not_recovered_counterexample :
    Event.print "Forbidden" ∉
      tempTrace confDemo none false (ApiResult.failure "Forbidden")
    ∧ Event.unhandledRejection ∈
      tempTrace confDemo none false (ApiResult.failure "Forbidden") := by
  decide

/-- C3 amended: a non-success response never updates the Configstore for
any command; the `fetch` command (like `auth`) recovers locally — it
prints the server-provided message, does not exit and leaves no
rejection unhandled — but the sensor, `devices` and `timeline` commands
install no failure handler: they stop after the request with an
unhandled rejection and the server message is not printed. -/
theorem remote_rejection_handling (conf : Conf) (msg t : String)
    (ht : conf.token = some t) (verbose debug : Bool)
    (device : Option String) (path pre post : String) (transform : ℚ → ℚ)
    (limit : Option String) (point : DeviceRecord)
    (hdev : getDevice (jsGetDevices conf) device = some point) :
    fetchCommandTrace conf (ApiResult.failure msg) =
      [Event.print "Fetching Points...", Event.request "/devices" [],
       Event.print msg]
    ∧ applyEvents conf (fetchCommandTrace conf (ApiResult.failure msg)) = conf
    ∧ (∀ k, Event.exitProcess k ∉
        fetchCommandTrace conf (ApiResult.failure msg))
    ∧ Event.unhandledRejection ∉
        fetchCommandTrace conf (ApiResult.failure msg)
    ∧ sensorTrace path pre post transform conf device debug
        (ApiResult.failure msg) =
      [Event.print ("Point: " ++ point.name),
       Event.request ("/devices/" ++ point.id ++ "/" ++ path) [],
       Event.unhandledRejection]
    ∧ applyEvents conf (sensorTrace path pre post transform conf device
        debug (ApiResult.failure msg)) = conf
    ∧ devicesCommandTrace conf verbose debug (ApiResult.failure msg) =
      [Event.request "/devices" [], Event.unhandledRejection]
    ∧ timelineTrace conf limit debug (ApiResult.failure msg) =
      [Event.request "/events"
        [("order", "desc"), ("limit", limit.getD "10")],
       Event.unhandledRejection] := by
  have hf : fetchCommandTrace conf (ApiResult.failure msg) =
      [Event.print "Fetching Points...", Event.request "/devices" [],
       Event.print msg] := by
    unfold fetchCommandTrace; rw [ht]; rfl
  have hs : sensorTrace path pre post transform conf device debug
      (ApiResult.failure msg) =
      [Event.print ("Point: " ++ point.name),
       Event.request ("/devices/" ++ point.id ++ "/" ++ path) [],
       Event.unhandledRejection] := by
    unfold sensorTrace; rw [ht, hdev]; rfl
  refine ⟨hf, by rw [hf]; rfl, ?_, by rw [hf]; simp, hs, by rw [hs]; rfl,
    ?_, ?_⟩
  · intro k hk
    rw [hf] at hk
    simp at hk
  · unfold devicesCommandTrace; rw [ht]; rfl
  · unfold timelineTrace; rw [ht]; rfl

/-- Witness for the amended C3: on the demo store, `fetch` prints the
server message while `temp` ends in an unhandled rejection without it. -/
theorem remote_rejection_handling_witness :
    fetchCommandTrace confDemo (ApiResult.failure "Forbidden") =
      [Event.print "Fetching Points...", Event.request "/devices" [],
       Event.print "Forbidden"]
    ∧ tempTrace confDemo none false (ApiResult.failure "Forbidden") =
      [Event.print "Point: Kitchen",
       Event.request "/devices/dev1/temperature" [],
       Event.unhandledRejection] := by
  have h := remote_rejection_handling confDemo "Forbidden" "tok" rfl false
      false none "temperature" "Temp: " "°C" round2 none
      { id := "dev1", name := "Kitchen" } (by decide)
  refine ⟨h.1, ?_⟩
  show sensorTrace "temperature" "Temp: " "°C" round2 confDemo none false
      (ApiResult.failure "Forbidden") = _
  rw [h.2.2.2.2.1]
  rfl
